import Mathlib

/-!
Shallow embedding of the lapin AMQP 0-9-1 client protocol engine
(CleverCloud/lapin), covering:

* the sans-io core (`src/channel.rs`): publisher-confirm ack/nack
  dispatch, connection tuning, outbound content chunking, content
  assembly errors, channel/connection close handling;
* the legacy `lapin-async` state machine (`async/src/api.rs`,
  `async/src/channel.rs`): expected-reply FIFO matching;
* the legacy `lapin-futures` consumer stream (`futures/src/consumer.rs`).

Collaborator modules that are not part of the sources here
(acknowledgement.rs, channel_status.rs, frames.rs, internal_rpc.rs,
connection.rs of the async crate, and the amq_protocol error tables) are
modelled from the specification; each such definition carries a doc
comment starting with `Modelled from the spec:`.
-/

/-! ## AMQP error codes (amq_protocol) -/

/-- Soft AMQP error classes with their 0-9-1 reply codes. -/
inductive AMQPSoftError where
  | contenttoolarge
  | noconsumers
  | accessrefused
  | notfound
  | resourcelocked
  | preconditionfailed
deriving DecidableEq, Repr

/-- Hard AMQP error classes with their 0-9-1 reply codes. -/
inductive AMQPHardError where
  | connectionforced
  | invalidpath
  | frameerror
  | syntaxerror
  | commandinvalid
  | channelerror
  | unexpectedframe
  | resourceerror
  | notallowed
  | notimplemented
  | internalerror
deriving DecidableEq, Repr

/-- Reply code of a soft error, as in the AMQP 0-9-1 specification. -/
def AMQPSoftError.code : AMQPSoftError → Nat
  | .contenttoolarge => 311
  | .noconsumers => 313
  | .accessrefused => 403
  | .notfound => 404
  | .resourcelocked => 405
  | .preconditionfailed => 406

/-- Reply code of a hard error, as in the AMQP 0-9-1 specification. -/
def AMQPHardError.code : AMQPHardError → Nat
  | .connectionforced => 320
  | .invalidpath => 402
  | .frameerror => 501
  | .syntaxerror => 502
  | .commandinvalid => 503
  | .channelerror => 504
  | .unexpectedframe => 505
  | .resourceerror => 506
  | .notallowed => 530
  | .notimplemented => 540
  | .internalerror => 541

/-- Modelled from the spec: the frame codec facility is external; an
AMQP error is a soft or hard error class. -/
inductive AMQPErrorKind where
  | soft (e : AMQPSoftError)
  | hard (e : AMQPHardError)
deriving DecidableEq, Repr

/-- Reply code of an error kind. -/
def AMQPErrorKind.code : AMQPErrorKind → Nat
  | .soft e => e.code
  | .hard e => e.code

/-- An AMQP error as carried by `Error::ProtocolError`: an error kind
plus a human-readable message. -/
structure AMQPError where
  kind : AMQPErrorKind
  message : String
deriving DecidableEq, Repr

/-- `AMQPError::get_id`: the numeric reply code. -/
def AMQPError.getId (e : AMQPError) : Nat := e.kind.code

/-- Modelled from the spec: `AMQPSoftError::from_id` of amq_protocol
(the external frame codec), mapping a reply code to its soft error. -/
def AMQPSoftError.fromId (id : Nat) : Option AMQPSoftError :=
  if id = 311 then some .contenttoolarge
  else if id = 313 then some .noconsumers
  else if id = 403 then some .accessrefused
  else if id = 404 then some .notfound
  else if id = 405 then some .resourcelocked
  else if id = 406 then some .preconditionfailed
  else none

/-- Modelled from the spec: `AMQPHardError::from_id` of amq_protocol
(the external frame codec), mapping a reply code to its hard error. -/
def AMQPHardError.fromId (id : Nat) : Option AMQPHardError :=
  if id = 320 then some .connectionforced
  else if id = 402 then some .invalidpath
  else if id = 501 then some .frameerror
  else if id = 502 then some .syntaxerror
  else if id = 503 then some .commandinvalid
  else if id = 504 then some .channelerror
  else if id = 505 then some .unexpectedframe
  else if id = 506 then some .resourceerror
  else if id = 530 then some .notallowed
  else if id = 540 then some .notimplemented
  else if id = 541 then some .internalerror
  else none

/-- Modelled from the spec: `AMQPError::try_from` on a received Close
method: succeeds exactly when the reply code is a known soft or hard
error code, carrying the reply text as message. -/
def AMQPError.fromId (id : Nat) (message : String) : Option AMQPError :=
  match AMQPSoftError.fromId id with
  | some e => some { kind := .soft e, message }
  | none =>
    match AMQPHardError.fromId id with
    | some e => some { kind := .hard e, message }
    | none => none

/-! ## Core state types (src/channel.rs and its collaborators) -/

/-- Connection state, per spec section 3: Initial, Connecting,
Connected, Closing, Closed, Error. -/
inductive ConnectionState where
  | initial
  | connecting
  | connected
  | closing
  | closed
  | error
deriving DecidableEq, Repr

/-- Channel state, per spec section 3 and the uses in src/channel.rs:
Initial, Connected, Closing, Closed, Error, SendingContent,
WillReceiveContent, ReceivingContent. The content cursor carries the
optional queue name, the optional consumer tag, the remaining byte
count and the confirm mode. -/
inductive ChannelState where
  | initial
  | connected
  | closing
  | closed
  | error
  | sendingContent (remaining : Nat)
  | willReceiveContent (queueName : Option String) (consumerTag : Option String)
      (confirmMode : Bool)
  | receivingContent (queueName : Option String) (consumerTag : Option String)
      (remaining : Nat) (confirmMode : Bool)
deriving DecidableEq, Repr

/-- The lapin `Error` enum, restricted to the variants the embedded
handlers produce. -/
inductive Err where
  | protocolError (e : AMQPError)
  | invalidConnectionState (s : ConnectionState)
  | invalidChannelState (s : ChannelState)
deriving DecidableEq, Repr

/-- The calls a channel makes on its `InternalRPCHandle`, recorded as
effects. -/
inductive RPC where
  | closeConnection (replyCode : Nat) (message : String) (classId methodId : Nat)
  | removeChannel (channelId : Nat) (e : Err)
  | setConnectionClosing
  | setConnectionClosed (e : Err)
  | setConnectionError (e : Err)
  | sendConnectionCloseOk (e : Err)
  | registerChannelClose (replyCode : Nat) (message : String) (classId methodId : Nat)
deriving DecidableEq, Repr

/-! ## Connection tuning (Channel::tune_connection_configuration) -/

/-- The connection `Configuration`: negotiated channel_max (u16),
frame_max (u32) and heartbeat (u16). -/
structure Configuration where
  channelMax : Nat
  frameMax : Nat
  heartbeat : Nat
deriving DecidableEq, Repr

/-- `Channel::tune_connection_configuration` (src/channel.rs lines
456-488), translated if-for-if: heartbeat is replaced when ours is 0 or
the server's non-zero value is lower; channel_max and frame_max take
the server's non-zero value when ours is 0 or theirs is lower, then
saturate to the maximum value of u16 resp. u32 when still 0. -/
def Channel.tune_connection_configuration (channelMax frameMax heartbeat : Nat)
    (cfg : Configuration) : Configuration :=
  let heartbeat1 :=
    if cfg.heartbeat = 0 ∨ (heartbeat ≠ 0 ∧ heartbeat < cfg.heartbeat) then heartbeat
    else cfg.heartbeat
  let channelMax1 :=
    if channelMax ≠ 0 ∧ (cfg.channelMax = 0 ∨ channelMax < cfg.channelMax) then channelMax
    else cfg.channelMax
  let channelMax2 := if channelMax1 = 0 then 65535 else channelMax1
  let frameMax1 :=
    if frameMax ≠ 0 ∧ (cfg.frameMax = 0 ∨ frameMax < cfg.frameMax) then frameMax
    else cfg.frameMax
  let frameMax2 := if frameMax1 = 0 then 4294967295 else frameMax1
  { channelMax := channelMax2, frameMax := frameMax2, heartbeat := heartbeat1 }

/-- The negotiation rule as the spec words it: a value of 0 accepts the
peer's value, otherwise the minimum of the two values is taken. -/
def negotiateRule (ours theirs : Nat) : Nat :=
  if ours = 0 then theirs
  else if theirs = 0 then ours
  else min ours theirs

/-- The saturation rule as the spec words it: a value still 0 after
negotiation becomes the maximum representable value of its type. -/
def saturateRule (maxValue v : Nat) : Nat :=
  if v = 0 then maxValue else v

/-- C4: On Connection.Tune, channel_max, frame_max and heartbeat are
each negotiated by the rule "0 accepts the peer's value, otherwise take
the minimum", and a channel_max or frame_max still 0 afterwards
saturates to the maximum representable value of u16 resp. u32
(heartbeat is not saturated). -/
theorem tune_connection_configuration_negotiates (channelMax frameMax heartbeat : Nat)
    (cfg : Configuration) :
    Channel.tune_connection_configuration channelMax frameMax heartbeat cfg =
      { channelMax := saturateRule 65535 (negotiateRule cfg.channelMax channelMax)
        frameMax := saturateRule 4294967295 (negotiateRule cfg.frameMax frameMax)
        heartbeat := negotiateRule cfg.heartbeat heartbeat } := by
  rcases cfg with ⟨cm, fm, hb⟩
  simp only [Channel.tune_connection_configuration, negotiateRule, saturateRule,
    Configuration.mk.injEq]
  refine ⟨?_, ?_, ?_⟩ <;> split_ifs <;> omega

/-! ## Publisher confirms (Channel::on_basic_ack_received / on_basic_nack_received) -/

/-- Resolution status of a publisher-confirm registry entry. -/
inductive ConfirmStatus where
  | pending
  | acked
  | nacked
  | resolvedError (e : Err)
deriving DecidableEq, Repr

/-- The publisher-confirm registry: an ordered list of delivery tag and
resolution status pairs. -/
abbrev AckRegistry := List (Nat × ConfirmStatus)

/-- Resolve one entry as Ack when it is the pending entry with the given
delivery tag, leave it unchanged otherwise. -/
def ackEntry (deliveryTag : Nat) (e : Nat × ConfirmStatus) : Nat × ConfirmStatus :=
  if e.1 = deliveryTag ∧ e.2 = .pending then (e.1, .acked) else e

/-- Resolve one entry as Nack when it is the pending entry with the
given delivery tag, leave it unchanged otherwise. -/
def nackEntry (deliveryTag : Nat) (e : Nat × ConfirmStatus) : Nat × ConfirmStatus :=
  if e.1 = deliveryTag ∧ e.2 = .pending then (e.1, .nacked) else e

/-- Whether the registry holds a pending entry for this delivery tag. -/
def AckRegistry.isPending (deliveryTag : Nat) (acks : AckRegistry) : Bool :=
  acks.any fun e => decide (e.1 = deliveryTag ∧ e.2 = ConfirmStatus.pending)

/-- The PRECONDITION-FAILED error raised on an unknown delivery tag. -/
def preconditionFailedError : AMQPError :=
  { kind := .soft .preconditionfailed, message := "unknown delivery tag" }

/-- Modelled from the spec: `Acknowledgements::ack`
(acknowledgement.rs is not among the sources) — resolve the exact
pending entry with this delivery tag as Ack; an unknown delivery tag is
an error (PRECONDITION-FAILED). -/
def AckRegistry.ack (deliveryTag : Nat) (acks : AckRegistry) :
    Except AMQPError AckRegistry :=
  if acks.isPending deliveryTag then .ok (acks.map (ackEntry deliveryTag))
  else .error preconditionFailedError

/-- Modelled from the spec: `Acknowledgements::nack` — resolve the
exact pending entry with this delivery tag as Nack; an unknown delivery
tag is an error (PRECONDITION-FAILED). -/
def AckRegistry.nack (deliveryTag : Nat) (acks : AckRegistry) :
    Except AMQPError AckRegistry :=
  if acks.isPending deliveryTag then .ok (acks.map (nackEntry deliveryTag))
  else .error preconditionFailedError

/-- Modelled from the spec: `Acknowledgements::ack_all_before` —
resolve every pending entry with tag at most the given delivery tag as
Ack. -/
def AckRegistry.ackAllBefore (deliveryTag : Nat) (acks : AckRegistry) :
    Except AMQPError AckRegistry :=
  .ok (acks.map fun e =>
    if e.1 ≤ deliveryTag ∧ e.2 = .pending then (e.1, .acked) else e)

/-- Modelled from the spec: `Acknowledgements::nack_all_before` —
resolve every pending entry with tag at most the given delivery tag as
Nack. -/
def AckRegistry.nackAllBefore (deliveryTag : Nat) (acks : AckRegistry) :
    Except AMQPError AckRegistry :=
  .ok (acks.map fun e =>
    if e.1 ≤ deliveryTag ∧ e.2 = .pending then (e.1, .nacked) else e)

/-- Modelled from the spec: `Acknowledgements::ack_all_pending` —
resolve every currently pending entry as Ack. -/
def AckRegistry.ackAllPending (acks : AckRegistry) : AckRegistry :=
  acks.map fun e => if e.2 = .pending then (e.1, .acked) else e

/-- Modelled from the spec: `Acknowledgements::nack_all_pending` —
resolve every currently pending entry as Nack. -/
def AckRegistry.nackAllPending (acks : AckRegistry) : AckRegistry :=
  acks.map fun e => if e.2 = .pending then (e.1, .nacked) else e

/-- Modelled from the spec: `Acknowledgements::on_channel_error` —
resolve every pending entry with the channel's error. -/
def AckRegistry.onChannelError (e : Err) (acks : AckRegistry) : AckRegistry :=
  acks.map fun entry =>
    if entry.2 = .pending then (entry.1, .resolvedError e) else entry

/-- The channel state an ack/nack handler touches: the
publisher-confirm flag of `ChannelStatus`, the acknowledgement registry
and the recorded internal-rpc effects. -/
structure AckState where
  confirmMode : Bool
  acknowledgements : AckRegistry
  rpc : List RPC
deriving Repr

/-- A received Basic.Ack method frame. -/
structure BasicAck where
  deliveryTag : Nat
  multiple : Bool
deriving DecidableEq, Repr

/-- A received Basic.Nack method frame. -/
structure BasicNack where
  deliveryTag : Nat
  multiple : Bool
  requeue : Bool
deriving DecidableEq, Repr

/-- AMQP class id of the Basic class. -/
def basicClassId : Nat := 60

/-- AMQP method id of Basic.Ack. -/
def basicAckMethodId : Nat := 80

/-- AMQP method id of Basic.Nack. -/
def basicNackMethodId : Nat := 120

/-- `Channel::acknowledgement_error` (src/channel.rs lines 388-403):
register an internal future closing the channel with the error, and
fail with `Error::ProtocolError`. -/
def Channel.acknowledgement_error (e : AMQPError) (classId methodId : Nat)
    (s : AckState) : Except Err Unit × AckState :=
  (.error (.protocolError e),
   { s with rpc := s.rpc ++ [.registerChannelClose e.getId e.message classId methodId] })

/-- `Channel::on_basic_ack_received` (src/channel.rs lines 873-902): in
confirm mode, a multiple ack with positive tag resolves all pending
tags up to it, a multiple ack with tag 0 resolves all pending, a single
ack resolves the exact tag; errors go through acknowledgement_error.
Outside confirm mode the frame is ignored. -/
def Channel.on_basic_ack_received (m : BasicAck) (s : AckState) :
    Except Err Unit × AckState :=
  if s.confirmMode then
    if m.multiple then
      if m.deliveryTag > 0 then
        match AckRegistry.ackAllBefore m.deliveryTag s.acknowledgements with
        | .ok acks => (.ok (), { s with acknowledgements := acks })
        | .error e => Channel.acknowledgement_error e basicClassId basicAckMethodId s
      else
        (.ok (), { s with acknowledgements := s.acknowledgements.ackAllPending })
    else
      match AckRegistry.ack m.deliveryTag s.acknowledgements with
      | .ok acks => (.ok (), { s with acknowledgements := acks })
      | .error e => Channel.acknowledgement_error e basicClassId basicAckMethodId s
  else (.ok (), s)

/-- `Channel::on_basic_nack_received` (src/channel.rs lines 904-933):
the Nack counterpart of `on_basic_ack_received`. -/
def Channel.on_basic_nack_received (m : BasicNack) (s : AckState) :
    Except Err Unit × AckState :=
  if s.confirmMode then
    if m.multiple then
      if m.deliveryTag > 0 then
        match AckRegistry.nackAllBefore m.deliveryTag s.acknowledgements with
        | .ok acks => (.ok (), { s with acknowledgements := acks })
        | .error e => Channel.acknowledgement_error e basicClassId basicNackMethodId s
      else
        (.ok (), { s with acknowledgements := s.acknowledgements.nackAllPending })
    else
      match AckRegistry.nack m.deliveryTag s.acknowledgements with
      | .ok acks => (.ok (), { s with acknowledgements := acks })
      | .error e => Channel.acknowledgement_error e basicClassId basicNackMethodId s
  else (.ok (), s)

/-- C1: For a Basic.Ack received on a channel in confirm mode: with
multiple false (and the tag pending) exactly the pending entry with
that delivery tag is resolved as Ack; with multiple true and a positive
delivery tag every pending entry with tag at most the delivery tag is
resolved as Ack; with multiple true and delivery tag 0 every currently
pending entry is resolved as Ack. All other entries are unchanged. -/
theorem basic_ack_dispatch (m : BasicAck) (s : AckState)
    (hc : s.confirmMode = true) :
    (m.multiple = false → s.acknowledgements.isPending m.deliveryTag = true →
      Channel.on_basic_ack_received m s =
        (.ok (), { s with acknowledgements := s.acknowledgements.map fun e =>
          if e.1 = m.deliveryTag ∧ e.2 = .pending then (e.1, .acked) else e })) ∧
    (m.multiple = true → 0 < m.deliveryTag →
      Channel.on_basic_ack_received m s =
        (.ok (), { s with acknowledgements := s.acknowledgements.map fun e =>
          if e.1 ≤ m.deliveryTag ∧ e.2 = .pending then (e.1, .acked) else e })) ∧
    (m.multiple = true → m.deliveryTag = 0 →
      Channel.on_basic_ack_received m s =
        (.ok (), { s with acknowledgements := s.acknowledgements.map fun e =>
          if e.2 = .pending then (e.1, .acked) else e })) := by
  refine ⟨fun hm hp => ?_, fun hm ht => ?_, fun hm ht => ?_⟩
  · simp [Channel.on_basic_ack_received, hc, hm, AckRegistry.ack, ackEntry, hp]
  · simp [Channel.on_basic_ack_received, hc, hm, ht, AckRegistry.ackAllBefore]
  · simp [Channel.on_basic_ack_received, hc, hm, ht, AckRegistry.ackAllPending]

/-- C1 witness: a concrete three-entry registry exercising the
single-ack branch of `basic_ack_dispatch`. -/
theorem basic_ack_dispatch_witness :
    let s : AckState :=
      { confirmMode := true
        acknowledgements := [(1, .pending), (2, .pending), (3, .acked)]
        rpc := [] }
    let m : BasicAck := { deliveryTag := 2, multiple := false }
    s.confirmMode = true ∧
      (m.multiple = false → s.acknowledgements.isPending m.deliveryTag = true →
        Channel.on_basic_ack_received m s =
          (.ok (), { s with acknowledgements := s.acknowledgements.map fun e =>
            if e.1 = m.deliveryTag ∧ e.2 = .pending then (e.1, .acked) else e })) :=
  ⟨rfl, (basic_ack_dispatch _ _ rfl).1⟩

/-- C9: A Basic.Ack or Basic.Nack received on a channel whose
publisher-confirm mode is off returns success and leaves the whole
channel state (registry and recorded effects included) unchanged. -/
theorem basic_ack_nack_ignored_without_confirm (ma : BasicAck) (mn : BasicNack)
    (s : AckState) (hc : s.confirmMode = false) :
    Channel.on_basic_ack_received ma s = (.ok (), s) ∧
    Channel.on_basic_nack_received mn s = (.ok (), s) := by
  constructor <;>
    simp [Channel.on_basic_ack_received, Channel.on_basic_nack_received, hc]

/-- C9 witness: a concrete channel with confirm mode off and a pending
entry; both handlers leave it untouched. -/
theorem basic_ack_nack_ignored_without_confirm_witness :
    let s : AckState :=
      { confirmMode := false, acknowledgements := [(7, .pending)], rpc := [] }
    Channel.on_basic_ack_received { deliveryTag := 7, multiple := true } s =
        (.ok (), s) ∧
      Channel.on_basic_nack_received
        { deliveryTag := 7, multiple := false, requeue := true } s = (.ok (), s) :=
  basic_ack_nack_ignored_without_confirm _ _ _ rfl

/-! ## Outbound content chunking (Channel::send_method_frame_with_body) -/

/-- An AMQP frame as exposed by the codec contract: protocol header,
method, content header, body, heartbeat. Method arguments are reduced
to class and method ids; bytes are naturals. -/
inductive AMQPFrame where
  | protocolHeader
  | methodFrame (channel : Nat) (classId methodId : Nat)
  | header (channel : Nat) (classId : Nat) (bodySize : Nat)
  | body (channel : Nat) (payload : List Nat)
  | heartbeat (channel : Nat)
deriving DecidableEq, Repr

/-- Split a list into consecutive chunks of `n` elements, the last one
possibly shorter — the behaviour of Rust `slice::chunks(n)` for
`n > 0`. -/
def chunksOf (n : Nat) : List α → List (List α)
  | [] => []
  | x :: xs => (x :: xs).take n :: chunksOf n (xs.drop (n - 1))
termination_by xs => xs.length
decreasing_by
  simp only [List.length_cons, List.length_drop]
  omega

/-- Concatenating the chunks gives back the original list. -/
theorem chunksOf_flatten (n : Nat) (h : 0 < n) :
    ∀ xs : List α, (chunksOf n xs).flatten = xs
  | [] => by simp [chunksOf]
  | x :: xs => by
    rw [chunksOf, List.flatten_cons, chunksOf_flatten n h (xs.drop (n - 1))]
    have hd : (x :: xs).drop n = xs.drop (n - 1) := by
      rcases n with _ | m
      · exact (Nat.lt_irrefl 0 h).elim
      · simp
    rw [← hd, List.take_append_drop]
termination_by xs => xs.length
decreasing_by
  simp only [List.length_cons, List.length_drop]
  omega

/-- Every chunk holds at most `n` elements. -/
theorem chunksOf_length_le (n : Nat) :
    ∀ (xs l : List α), l ∈ chunksOf n xs → l.length ≤ n
  | [], l, hl => by simp [chunksOf] at hl
  | x :: xs, l, hl => by
    rw [chunksOf, List.mem_cons] at hl
    rcases hl with hl | hl
    · subst hl
      simp only [List.length_take]
      omega
    · exact chunksOf_length_le n (xs.drop (n - 1)) l hl
termination_by xs _ _ => xs.length
decreasing_by
  simp only [List.length_cons, List.length_drop]
  omega

/-- The number of chunks is the length of the list divided by `n`,
rounded up. -/
theorem chunksOf_count (n : Nat) (h : 0 < n) :
    ∀ xs : List α, (chunksOf n xs).length = (xs.length + n - 1) / n
  | [] => by
    simp only [chunksOf, List.length_nil, Nat.zero_add]
    exact (Nat.div_eq_of_lt (by omega)).symm
  | x :: xs => by
    rw [chunksOf]
    simp only [List.length_cons]
    rw [chunksOf_count n h (xs.drop (n - 1)), List.length_drop]
    have key : xs.length + 1 + n - 1 = xs.length + n := by omega
    rw [key, Nat.add_div_right _ h]
    rcases Nat.lt_or_ge xs.length (n - 1) with hlt | hge
    · have h1 : xs.length - (n - 1) = 0 := by omega
      rw [h1, Nat.div_eq_of_lt (by omega), Nat.div_eq_of_lt (by omega)]
    · have h1 : xs.length - (n - 1) + n - 1 = xs.length := by omega
      rw [h1]
termination_by xs => xs.length
decreasing_by
  simp only [List.length_cons, List.length_drop]
  omega

/-- Checked natural subtraction: `none` models the overflow panic of
Rust `usize` subtraction. -/
def checkedSub (a b : Nat) : Option Nat :=
  if b ≤ a then some (a - b) else none

/-- Rust `slice::chunks(size)`: panics (modelled as `none`) when the
chunk size is 0. -/
def sliceChunks (size : Nat) (xs : List Nat) : Option (List (List Nat)) :=
  if size = 0 then none else some (chunksOf size xs)

/-- `Channel::send_method_frame_with_body` (src/channel.rs lines
261-295), the frame batch it builds: the method frame, a content
header with body_size equal to the payload length, then one body frame
per chunk of `frame_max - 8` payload bytes. `none` models the panic
when `frame_max as usize - 8` underflows or the chunk size is 0. -/
def Channel.send_method_frame_with_body (channelId classId methodId : Nat)
    (payload : List Nat) (frameMax : Nat) : Option (List AMQPFrame) := do
  let chunkSize ← checkedSub frameMax 8
  let chunks ← sliceChunks chunkSize payload
  pure (AMQPFrame.methodFrame channelId classId methodId
    :: AMQPFrame.header channelId classId payload.length
    :: chunks.map (AMQPFrame.body channelId))

/-- Modelled from the spec: `Frames::push_frames` appends a batch of
frames atomically to the outbound frame queue — the batch occupies
consecutive positions, so no other frame interleaves with it. -/
def Frames.push_frames (queue batch : List AMQPFrame) : List AMQPFrame :=
  queue ++ batch

/-- C10: The body-chunking computation of send_method_frame_with_body
is defined exactly when frame_max > 8; for frame_max ≤ 8 the chunk
size `frame_max - 8` underflows or is 0 and the operation panics
(modelled as `none`). -/
theorem send_method_frame_with_body_defined_iff (channelId classId methodId : Nat)
    (payload : List Nat) (frameMax : Nat) :
    (Channel.send_method_frame_with_body channelId classId methodId payload
        frameMax).isSome = true ↔ 8 < frameMax := by
  by_cases hle : 8 ≤ frameMax
  · by_cases h0 : frameMax - 8 = 0
    · simp [Channel.send_method_frame_with_body, checkedSub, sliceChunks,
        hle, h0]
      omega
    · simp [Channel.send_method_frame_with_body, checkedSub, sliceChunks,
        hle, h0]
      omega
  · simp [Channel.send_method_frame_with_body, checkedSub, sliceChunks, hle]
    omega

/-- C3: For an outbound publish of an n-byte payload with negotiated
frame_max f > 8, the emitted batch is the method frame, then a content
header whose body_size is n, then ⌈n / (f − 8)⌉ body frames each of at
most f − 8 bytes whose lengths sum to n; push_frames appends the batch
contiguously to the frame queue, so no other frame of the channel
interleaves with it. -/
theorem send_method_frame_with_body_batch (channelId classId methodId : Nat)
    (payload : List Nat) (frameMax : Nat) (h : 8 < frameMax) :
    ∃ bodyFrames : List AMQPFrame,
      Channel.send_method_frame_with_body channelId classId methodId payload
          frameMax =
        some (AMQPFrame.methodFrame channelId classId methodId
          :: AMQPFrame.header channelId classId payload.length :: bodyFrames) ∧
      bodyFrames.length = (payload.length + (frameMax - 8) - 1) / (frameMax - 8) ∧
      (∀ fr ∈ bodyFrames, ∃ chunk : List Nat,
        fr = AMQPFrame.body channelId chunk ∧ chunk.length ≤ frameMax - 8) ∧
      ((chunksOf (frameMax - 8) payload).map List.length).sum = payload.length ∧
      (∀ queue : List AMQPFrame,
        Frames.push_frames queue
            (AMQPFrame.methodFrame channelId classId methodId
              :: AMQPFrame.header channelId classId payload.length :: bodyFrames) =
          queue ++ AMQPFrame.methodFrame channelId classId methodId
            :: AMQPFrame.header channelId classId payload.length :: bodyFrames) := by
  have hle : 8 ≤ frameMax := by omega
  have h0 : frameMax - 8 ≠ 0 := by omega
  refine ⟨(chunksOf (frameMax - 8) payload).map (AMQPFrame.body channelId),
    ?_, ?_, ?_, ?_, fun queue => rfl⟩
  · simp [Channel.send_method_frame_with_body, checkedSub, sliceChunks, hle, h0]
  · rw [List.length_map]
    exact chunksOf_count (frameMax - 8) (by omega) payload
  · intro fr hfr
    rw [List.mem_map] at hfr
    rcases hfr with ⟨chunk, hmem, hfr⟩
    exact ⟨chunk, hfr.symm,
      chunksOf_length_le (frameMax - 8) payload chunk hmem⟩
  · rw [← List.length_flatten, chunksOf_flatten (frameMax - 8) (by omega) payload]

/-- C3 witness: a 5-byte payload with frame_max 4096 on channel 1. -/
theorem send_method_frame_with_body_batch_witness :
    8 < 4096 ∧
      (∃ bodyFrames : List AMQPFrame,
        Channel.send_method_frame_with_body 1 60 40 [10, 20, 30, 40, 50] 4096 =
          some (AMQPFrame.methodFrame 1 60 40
            :: AMQPFrame.header 1 60 ([10, 20, 30, 40, 50] : List Nat).length
            :: bodyFrames) ∧
        bodyFrames.length =
          (([10, 20, 30, 40, 50] : List Nat).length + (4096 - 8) - 1) / (4096 - 8) ∧
        (∀ fr ∈ bodyFrames, ∃ chunk : List Nat,
          fr = AMQPFrame.body 1 chunk ∧ chunk.length ≤ 4096 - 8) ∧
        ((chunksOf (4096 - 8) [10, 20, 30, 40, 50]).map List.length).sum =
          ([10, 20, 30, 40, 50] : List Nat).length ∧
        (∀ queue : List AMQPFrame,
          Frames.push_frames queue
              (AMQPFrame.methodFrame 1 60 40
                :: AMQPFrame.header 1 60 ([10, 20, 30, 40, 50] : List Nat).length
                :: bodyFrames) =
            queue ++ AMQPFrame.methodFrame 1 60 40
              :: AMQPFrame.header 1 60 ([10, 20, 30, 40, 50] : List Nat).length
              :: bodyFrames)) :=
  ⟨by decide, send_method_frame_with_body_batch 1 60 40 [10, 20, 30, 40, 50] 4096
    (by decide)⟩

/-! ## Content assembly errors (Channel::handle_body_frame) -/

/-- The channel state a body-frame handler touches: channel id, channel
state (with the content-assembly cursor) and recorded internal-rpc
effects. Routing of completed deliveries to queues, consumers and
returned messages is orthogonal to the error behaviour and elided. -/
structure BodyFrameState where
  id : Nat
  state : ChannelState
  rpc : List RPC
deriving DecidableEq, Repr

/-- `Channel::handle_invalid_contents` (src/channel.rs lines 297-307):
build an UNEXPECTED-FRAME protocol error, ask the internal rpc to close
the connection with it, and fail. -/
def Channel.handle_invalid_contents (message : String) (classId methodId : Nat)
    (s : BodyFrameState) : Except Err Unit × BodyFrameState :=
  let error : AMQPError := { kind := .hard .unexpectedframe, message }
  (.error (.protocolError error),
   { s with rpc := s.rpc ++ [.closeConnection error.getId error.message classId methodId] })

/-- `Channel::handle_body_frame` (src/channel.rs lines 352-374) over
`ChannelStatus::receive`, the latter modelled from the spec
(channel_status.rs is not among the sources): a body frame is accepted
only in ReceivingContent with payload length at most the remaining
byte count; the cursor decrements, returning to Connected at 0. Any
other situation (no content assembly in progress — remaining already
0 — or an oversized payload) goes to handle_invalid_contents with
class id and method id 0. -/
def Channel.handle_body_frame (payloadLen : Nat) (s : BodyFrameState) :
    Except Err Unit × BodyFrameState :=
  match s.state with
  | .receivingContent queueName consumerTag remaining confirmMode =>
    if payloadLen ≤ remaining then
      let remaining1 := remaining - payloadLen
      (.ok (),
       { s with state :=
          if remaining1 = 0 then .connected
          else .receivingContent queueName consumerTag remaining1 confirmMode })
    else
      Channel.handle_invalid_contents "unexpected body frame received" 0 0 s
  | _ => Channel.handle_invalid_contents "unexpected body frame received" 0 0 s

/-- C5 counterexample: a body frame of 3 bytes while only 2 bytes
remain raises UNEXPECTED-FRAME (reply code 505), not FRAME-ERROR
(reply code 501) as the claim states. -/
theorem handle_body_frame_not_frame_error :
    (Channel.handle_body_frame 3
        { id := 1
          state := .receivingContent (some "q") none 2 false
          rpc := [] }).1 =
      .error (.protocolError
        { kind := .hard .unexpectedframe
          message := "unexpected body frame received" }) ∧
    AMQPHardError.unexpectedframe.code = 505 ∧
    AMQPHardError.frameerror.code = 501 ∧
    (AMQPErrorKind.hard .unexpectedframe).code ≠ AMQPHardError.frameerror.code := by
  refine ⟨rfl, rfl, rfl, ?_⟩
  decide

/-- C5 amended: a body frame received when no content assembly is in
progress (remaining = 0, i.e. the channel is not in ReceivingContent)
or whose payload exceeds the remaining byte count raises a protocol
error with the hard error code UNEXPECTED-FRAME (505) and initiates
Connection.Close through the internal rpc. -/
theorem handle_body_frame_invalid (payloadLen : Nat) (s : BodyFrameState)
    (hbad : ¬ ∃ queueName consumerTag remaining confirmMode,
      s.state = .receivingContent queueName consumerTag remaining confirmMode ∧
        payloadLen ≤ remaining) :
    Channel.handle_body_frame payloadLen s =
      (.error (.protocolError
        { kind := .hard .unexpectedframe
          message := "unexpected body frame received" }),
       { s with rpc := s.rpc ++
          [.closeConnection 505 "unexpected body frame received" 0 0] }) := by
  rcases s with ⟨id, state, rpc⟩
  cases state
  all_goals
    simp only [Channel.handle_body_frame, Channel.handle_invalid_contents,
      AMQPError.getId, AMQPErrorKind.code, AMQPHardError.code]
  case receivingContent queueName consumerTag remaining confirmMode =>
    rw [if_neg]
    intro hle
    exact hbad ⟨queueName, consumerTag, remaining, confirmMode, rfl, hle⟩

/-- C5 amended witness: a body frame in the Connected state (no
assembly in progress). -/
theorem handle_body_frame_invalid_witness :
    (¬ ∃ queueName consumerTag remaining confirmMode,
      (ChannelState.connected : ChannelState) =
          .receivingContent queueName consumerTag remaining confirmMode ∧
        (5 : Nat) ≤ remaining) ∧
    Channel.handle_body_frame 5 { id := 2, state := .connected, rpc := [] } =
      (.error (.protocolError
        { kind := .hard .unexpectedframe
          message := "unexpected body frame received" }),
       { id := 2, state := .connected,
         rpc := [.closeConnection 505 "unexpected body frame received" 0 0] }) :=
  ⟨by rintro ⟨q, t, r, c, hcon, _⟩; exact absurd hcon (by simp),
   handle_body_frame_invalid 5 { id := 2, state := .connected, rpc := [] }
     (by rintro ⟨q, t, r, c, hcon, _⟩; exact absurd hcon (by simp))⟩

/-! ## Channel close and pending confirms (Channel::set_closed) -/

/-- The channel state the close path touches: id, state, publisher
confirm registry, whether the consumers were cancelled, and recorded
internal-rpc effects. -/
structure ChannelCloseState where
  id : Nat
  state : ChannelState
  acknowledgements : AckRegistry
  consumersCancelled : Bool
  rpc : List RPC
deriving Repr

/-- `Channel::set_closed` (src/channel.rs lines 126-131): set the state
to Closed, error the publisher confirms with the close error
(`Acknowledgements::on_channel_error`, modelled from the spec), cancel
the consumers, and remove the channel through the internal rpc. -/
def Channel.set_closed (error : Err) (s : ChannelCloseState) : ChannelCloseState :=
  { s with
    state := .closed
    acknowledgements := s.acknowledgements.onChannelError error
    consumersCancelled := true
    rpc := s.rpc ++ [.removeChannel s.id error] }

/-- `Channel::on_channel_close_ok_sent` (src/channel.rs lines 436-438):
the channel just sent Channel.CloseOk; close it with the recorded
error. -/
def Channel.on_channel_close_ok_sent (error : Err) (s : ChannelCloseState) :
    ChannelCloseState :=
  Channel.set_closed error s

/-- `Channel::on_channel_close_ok_received` (src/channel.rs lines
753-756): the server confirmed our Channel.Close; close the channel
with InvalidChannelState(Closed). -/
def Channel.on_channel_close_ok_received (s : ChannelCloseState) :
    Except Err Unit × ChannelCloseState :=
  (.ok (), Channel.set_closed (.invalidChannelState .closed) s)

/-- C6: Whenever a channel is closed — Channel.CloseOk sent or received
— every pending publisher-confirm entry is resolved with the channel's
close error (all other entries unchanged), and the channel state
becomes Closed. -/
theorem channel_close_resolves_pending_confirms (error : Err)
    (s : ChannelCloseState) :
    ((Channel.on_channel_close_ok_sent error s).acknowledgements =
        s.acknowledgements.map fun e =>
          if e.2 = .pending then (e.1, .resolvedError error) else e) ∧
    (Channel.on_channel_close_ok_sent error s).state = .closed ∧
    ((Channel.on_channel_close_ok_received s).2.acknowledgements =
        s.acknowledgements.map fun e =>
          if e.2 = .pending then
            (e.1, .resolvedError (.invalidChannelState .closed))
          else e) ∧
    (Channel.on_channel_close_ok_received s).2.state = .closed ∧
    (∀ tag : Nat, (tag, ConfirmStatus.pending) ∈ s.acknowledgements →
      (tag, ConfirmStatus.resolvedError error) ∈
        (Channel.on_channel_close_ok_sent error s).acknowledgements) := by
  refine ⟨rfl, rfl, rfl, rfl, fun tag hmem => ?_⟩
  have : (tag, ConfirmStatus.resolvedError error) =
      (fun e : Nat × ConfirmStatus =>
        if e.2 = .pending then (e.1, ConfirmStatus.resolvedError error) else e)
        (tag, ConfirmStatus.pending) := by simp
  rw [this]
  exact List.mem_map_of_mem _ hmem

/-- C6 witness: a channel with two pending confirms and one already
acked entry, closed by a received Channel.CloseOk after sending one
with a protocol error. -/
theorem channel_close_resolves_pending_confirms_witness :
    let s : ChannelCloseState :=
      { id := 4
        state := .closing
        acknowledgements := [(1, .pending), (2, .acked), (3, .pending)]
        consumersCancelled := false
        rpc := [] }
    let error : Err := .protocolError { kind := .hard .connectionforced, message := "closed" }
    (1, ConfirmStatus.pending) ∈ s.acknowledgements ∧
      (1, ConfirmStatus.resolvedError error) ∈
        (Channel.on_channel_close_ok_sent error s).acknowledgements :=
  ⟨by decide,
   (channel_close_resolves_pending_confirms _ _).2.2.2.2 1 (by decide)⟩

/-! ## Connection.Close received (Channel::on_connection_close_received) -/

/-- A received Connection.Close method. -/
structure ConnectionClose where
  replyCode : Nat
  replyText : String
  classId : Nat
  methodId : Nat
deriving DecidableEq, Repr

/-- The state the connection-close path touches: the pending frames of
the FrameQueue (`none` = resolver unresolved, `some e` = failed with
`e`), the connection-open resolver of ConnectionStatus (present or
not, and its resolution), and recorded internal-rpc effects. -/
structure ConnectionCloseState where
  pendingFrames : List (Option Err)
  hasConnectionResolver : Bool
  connectionResolution : Option (Except Err Unit)
  rpc : List RPC
deriving Repr

/-- The error `on_connection_close_received` derives from the method:
`Error::ProtocolError` when the reply code is a known AMQP error code,
`Error::InvalidConnectionState(Closed)` otherwise. -/
def connectionCloseError (m : ConnectionClose) : Err :=
  match AMQPError.fromId m.replyCode m.replyText with
  | some e => .protocolError e
  | none => .invalidConnectionState .closed

/-- `Channel::on_connection_close_received` (src/channel.rs lines
655-676): derive the error, set the connection closing, drop every
pending frame with the error (`Frames::drop_pending`, modelled from
the spec: fails every resolver with the error), fail a still-pending
connection-open resolver, and ask the internal rpc to send
Connection.CloseOk. -/
def Channel.on_connection_close_received (m : ConnectionClose)
    (s : ConnectionCloseState) : Except Err Unit × ConnectionCloseState :=
  let error := connectionCloseError m
  (.ok (),
   { s with
     pendingFrames := s.pendingFrames.map fun _ => some error
     connectionResolution :=
       if s.hasConnectionResolver then some (.error error)
       else s.connectionResolution
     rpc := s.rpc ++ [.setConnectionClosing, .sendConnectionCloseOk error] })

/-- `Channel::on_connection_close_ok_sent` (src/channel.rs lines
424-430): after the CloseOk went out, a protocol error marks the
connection errored, any other error marks it closed. -/
def Channel.on_connection_close_ok_sent (error : Err) (s : ConnectionCloseState) :
    ConnectionCloseState :=
  match error with
  | .protocolError _ => { s with rpc := s.rpc ++ [.setConnectionError error] }
  | _ => { s with rpc := s.rpc ++ [.setConnectionClosed error] }

/-- Modelled from the spec: the InternalRPC executor applies the
connection-state effects — set_connection_closing enters Closing,
set_connection_closed enters Closed, set_connection_error enters
Error; other effects leave the state. -/
def applyConnectionRPC (state : ConnectionState) : RPC → ConnectionState
  | .setConnectionClosing => .closing
  | .setConnectionClosed _ => .closed
  | .setConnectionError _ => .error
  | _ => state

/-- Run a list of internal-rpc effects over a connection state. -/
def runConnectionRPCs (state : ConnectionState) (effects : List RPC) :
    ConnectionState :=
  effects.foldl applyConnectionRPC state

/-- The full Connection.Close scenario: receive the Close, then (once
the internal rpc has written the CloseOk frame) run
on_connection_close_ok_sent; the resulting connection state is the
interpretation of the emitted effects. -/
def connectionCloseScenario (m : ConnectionClose) (s : ConnectionCloseState)
    (connState : ConnectionState) : ConnectionCloseState × ConnectionState :=
  let s1 := (Channel.on_connection_close_received m s).2
  let s2 := Channel.on_connection_close_ok_sent (connectionCloseError m) s1
  (s2, runConnectionRPCs connState (s2.rpc.drop s.rpc.length))

/-- C7 counterexample: a Connection.Close with reply code 320
(CONNECTION-FORCED) leaves the connection in the Error state once
CloseOk is sent — not in the Closed state as the claim says. -/
theorem connection_close_does_not_end_closed :
    (connectionCloseScenario
        { replyCode := 320, replyText := "CONNECTION_FORCED", classId := 0, methodId := 0 }
        { pendingFrames := [none]
          hasConnectionResolver := true
          connectionResolution := none
          rpc := [] }
        .connected).2 = ConnectionState.error ∧
    ConnectionState.error ≠ ConnectionState.closed := by
  constructor
  · rfl
  · decide

/-- C7 amended: on Connection.Close received, every pending frame is
failed with the reported error, a still-unresolved connection-open
promise is failed with that error, Connection.CloseOk is sent and the
connection enters Closing; after the CloseOk goes out the connection
ends in Closed when the reply code was not an AMQP error code, and in
Error when it was. -/
theorem connection_close_received_spec (m : ConnectionClose)
    (s : ConnectionCloseState) (connState : ConnectionState) :
    (Channel.on_connection_close_received m s).1 = .ok () ∧
    ((connectionCloseScenario m s connState).1.pendingFrames =
      s.pendingFrames.map fun _ => some (connectionCloseError m)) ∧
    ((connectionCloseScenario m s connState).1.connectionResolution =
      if s.hasConnectionResolver then some (.error (connectionCloseError m))
      else s.connectionResolution) ∧
    RPC.sendConnectionCloseOk (connectionCloseError m) ∈
      (connectionCloseScenario m s connState).1.rpc ∧
    runConnectionRPCs connState [RPC.setConnectionClosing] = .closing ∧
    ((connectionCloseScenario m s connState).2 =
      if (AMQPError.fromId m.replyCode m.replyText).isSome then
        ConnectionState.error
      else ConnectionState.closed) := by
  refine ⟨rfl, ?_, ?_, ?_, rfl, ?_⟩
  · cases hfid : AMQPError.fromId m.replyCode m.replyText <;>
      simp [connectionCloseScenario, Channel.on_connection_close_received,
        Channel.on_connection_close_ok_sent, connectionCloseError, hfid]
  · cases hfid : AMQPError.fromId m.replyCode m.replyText <;>
      simp [connectionCloseScenario, Channel.on_connection_close_received,
        Channel.on_connection_close_ok_sent, connectionCloseError, hfid]
  · cases hfid : AMQPError.fromId m.replyCode m.replyText <;>
      simp [connectionCloseScenario, Channel.on_connection_close_received,
        Channel.on_connection_close_ok_sent, connectionCloseError, hfid]
  · cases hfid : AMQPError.fromId m.replyCode m.replyText <;>
      simp [connectionCloseScenario, Channel.on_connection_close_received,
        Channel.on_connection_close_ok_sent, connectionCloseError, hfid,
        runConnectionRPCs, applyConnectionRPC]

/-! ## Legacy lapin-async expected-reply FIFO (async/src/api.rs) -/

namespace LapinAsync

/-- `ChannelState` of async/src/api.rs lines 8-17. -/
inductive ChannelState where
  | initial
  | connected
  | closed
  | error
  | sendingContent (remaining : Nat)
  | willReceiveContent (queueName : String) (consumerTag : Option String)
  | receivingContent (queueName : String) (consumerTag : Option String) (remaining : Nat)
deriving DecidableEq, Repr

/-- `Answer` of async/src/api.rs lines 21-51: the expected-reply
descriptors, with their request ids and captured request context. -/
inductive Answer where
  | awaitingChannelOpenOk (requestId : Nat)
  | awaitingChannelFlowOk (requestId : Nat)
  | awaitingChannelCloseOk (requestId : Nat)
  | awaitingAccessRequestOk (requestId : Nat)
  | awaitingExchangeDeclareOk (requestId : Nat)
  | awaitingExchangeDeleteOk (requestId : Nat)
  | awaitingExchangeBindOk (requestId : Nat)
  | awaitingExchangeUnbindOk (requestId : Nat)
  | awaitingQueueDeclareOk (requestId : Nat)
  | awaitingQueueBindOk (requestId : Nat) (queue routingKey : String)
  | awaitingQueuePurgeOk (requestId : Nat) (queue : String)
  | awaitingQueueDeleteOk (requestId : Nat) (queue : String)
  | awaitingQueueUnbindOk (requestId : Nat) (queue routingKey : String)
  | awaitingBasicQosOk (requestId : Nat) (prefetchSize : Nat) (prefetchCount : Nat)
      (global : Bool)
  | awaitingBasicConsumeOk (requestId : Nat) (queue consumerTag : String)
      (noLocal noAck exclusive nowait : Bool)
  | awaitingBasicCancelOk (requestId : Nat)
  | awaitingBasicGetAnswer (requestId : Nat) (queue : String)
  | awaitingBasicRecoverOk (requestId : Nat)
  | awaitingTxSelectOk (requestId : Nat)
  | awaitingTxCommitOk (requestId : Nat)
  | awaitingTxRollbackOk (requestId : Nat)
  | awaitingConfirmSelectOk (requestId : Nat)
deriving DecidableEq, Repr

/-- `Channel` of async/src/channel.rs, restricted to the fields the
reply dispatch reads: the state and the awaiting FIFO (frame queue,
flow flags, queues and prefetch values are untouched here). -/
structure Chan where
  state : ChannelState
  awaiting : List Answer
deriving DecidableEq, Repr

/-- `Error` of the async crate, restricted to the variants
receive_channel_open_ok and receive_channel_close_ok produce. -/
inductive ApiError where
  | invalidChannel
  | invalidState
  | unexpectedAnswer
deriving DecidableEq, Repr

/-- `Connection` of the async crate, restricted to the channel map and
the finished-request set. -/
structure Conn where
  channels : List (Nat × Chan)
  finishedReqs : List Nat
deriving DecidableEq, Repr

/-- Look a channel up in the channel map. -/
def lookupChan (channelId : Nat) : List (Nat × Chan) → Option Chan
  | [] => none
  | (i, c) :: rest => if i = channelId then some c else lookupChan channelId rest

/-- Update a channel in the channel map. -/
def updateChan (channelId : Nat) (f : Chan → Chan) :
    List (Nat × Chan) → List (Nat × Chan)
  | [] => []
  | (i, c) :: rest =>
    if i = channelId then (i, f c) :: rest
    else (i, c) :: updateChan channelId f rest

/-- `channels.contains_key`. -/
def Conn.containsChannel (conn : Conn) (channelId : Nat) : Bool :=
  (lookupChan channelId conn.channels).isSome

/-- Modelled from the spec: `Connection::check_state` (connection.rs is
not among the sources) — whether the channel exists and is in the given
state. -/
def Conn.checkState (conn : Conn) (channelId : Nat) (state : ChannelState) : Bool :=
  match lookupChan channelId conn.channels with
  | some c => c.state = state
  | none => false

/-- `Channel::is_connected` (async/src/channel.rs lines 46-48), lifted
to the connection: any state but Initial, Closed and Error. -/
def Conn.isConnected (conn : Conn) (channelId : Nat) : Bool :=
  match lookupChan channelId conn.channels with
  | some c =>
    c.state ≠ ChannelState.initial ∧ c.state ≠ ChannelState.closed ∧
      c.state ≠ ChannelState.error
  | none => false

/-- `Connection::set_channel_state`. -/
def Conn.setChannelState (conn : Conn) (channelId : Nat) (state : ChannelState) :
    Conn :=
  { conn with channels := updateChan channelId (fun c => { c with state }) conn.channels }

/-- Modelled from the spec: `Connection::get_next_answer` — pop the
front of the channel's expected-reply FIFO (section 4.6:
next_expected_reply pops the FIFO of awaited replies). -/
def Conn.getNextAnswer (conn : Conn) (channelId : Nat) : Option Answer × Conn :=
  match lookupChan channelId conn.channels with
  | some c =>
    match c.awaiting with
    | [] => (none, conn)
    | a :: rest =>
      (some a,
       { conn with
         channels := updateChan channelId (fun ch => { ch with awaiting := rest })
           conn.channels })
  | none => (none, conn)

/-- `Connection::receive_channel_open_ok` (async/src/api.rs lines
167-195): unknown channel fails InvalidChannel; a channel not in
Initial goes to Error with InvalidState; then the next expected reply
is popped — an AwaitingChannelOpenOk finishes the request, sets the
channel Connected and pops one further answer; anything else sets the
channel Error and fails with UnexpectedAnswer. -/
def Connection.receive_channel_open_ok (channelId : Nat) (conn : Conn) :
    Except ApiError Unit × Conn :=
  if ¬ conn.containsChannel channelId then (.error .invalidChannel, conn)
  else if ¬ conn.checkState channelId .initial then
    (.error .invalidState, conn.setChannelState channelId .error)
  else
    match conn.getNextAnswer channelId with
    | (some (.awaitingChannelOpenOk requestId), conn1) =>
      let conn2 := { conn1 with finishedReqs := requestId :: conn1.finishedReqs }
      let conn3 := conn2.setChannelState channelId .connected
      let (_, conn4) := conn3.getNextAnswer channelId
      (.ok (), conn4)
    | (_, conn1) => (.error .unexpectedAnswer, conn1.setChannelState channelId .error)

/-- `Connection::receive_channel_close_ok` (async/src/api.rs lines
343-369): unknown channel fails InvalidChannel; a channel not
is_connected fails InvalidState; then the next expected reply is popped
— an AwaitingChannelCloseOk finishes the request and sets the channel
Closed; anything else sets the channel Error and fails with
UnexpectedAnswer. -/
def Connection.receive_channel_close_ok (channelId : Nat) (conn : Conn) :
    Except ApiError Unit × Conn :=
  if ¬ conn.containsChannel channelId then (.error .invalidChannel, conn)
  else if ¬ conn.isConnected channelId then (.error .invalidState, conn)
  else
    match conn.getNextAnswer channelId with
    | (some (.awaitingChannelCloseOk requestId), conn1) =>
      let conn2 := { conn1 with finishedReqs := requestId :: conn1.finishedReqs }
      (.ok (), conn2.setChannelState channelId .closed)
    | (_, conn1) => (.error .unexpectedAnswer, conn1.setChannelState channelId .error)

/-- Looking up after updating the same key applies the update. -/
theorem lookupChan_updateChan (channelId : Nat) (f : Chan → Chan) :
    ∀ channels : List (Nat × Chan),
      lookupChan channelId (updateChan channelId f channels) =
        (lookupChan channelId channels).map f
  | [] => rfl
  | (i, c) :: rest => by
    by_cases hi : i = channelId <;>
      simp [lookupChan, updateChan, hi, lookupChan_updateChan channelId f rest]

end LapinAsync

/-- C2: On a method frame for a channel, receive_channel_open_ok and
receive_channel_close_ok pop the next entry of the channel's
expected-reply FIFO; when the received method does not match the popped
expected reply, the channel transitions to Error and the request fails
with UnexpectedAnswer. -/
theorem receive_reply_mismatch_errors (channelId : Nat)
    (conn : LapinAsync.Conn) (ch : LapinAsync.Chan)
    (a : LapinAsync.Answer) (rest : List LapinAsync.Answer)
    (hch : LapinAsync.lookupChan channelId conn.channels = some ch)
    (hawait : ch.awaiting = a :: rest) :
    (ch.state = .initial →
      (∀ requestId, a ≠ .awaitingChannelOpenOk requestId) →
      LapinAsync.Connection.receive_channel_open_ok channelId conn =
        (.error .unexpectedAnswer,
         ((conn.getNextAnswer channelId).2.setChannelState channelId .error)) ∧
      LapinAsync.lookupChan channelId
          (LapinAsync.Connection.receive_channel_open_ok channelId conn).2.channels =
        some { state := .error, awaiting := rest }) ∧
    (conn.isConnected channelId = true →
      (∀ requestId, a ≠ .awaitingChannelCloseOk requestId) →
      LapinAsync.Connection.receive_channel_close_ok channelId conn =
        (.error .unexpectedAnswer,
         ((conn.getNextAnswer channelId).2.setChannelState channelId .error)) ∧
      LapinAsync.lookupChan channelId
          (LapinAsync.Connection.receive_channel_close_ok channelId conn).2.channels =
        some { state := .error, awaiting := rest }) := by
  have hcontains : conn.containsChannel channelId = true := by
    simp [LapinAsync.Conn.containsChannel, hch]
  constructor
  · intro hstate hmismatch
    have hcheck : conn.checkState channelId .initial = true := by
      simp [LapinAsync.Conn.checkState, hch, hstate]
    have hpop : conn.getNextAnswer channelId =
        (some a,
         { conn with
           channels := LapinAsync.updateChan channelId
             (fun c => { c with awaiting := rest }) conn.channels }) := by
      simp [LapinAsync.Conn.getNextAnswer, hch, hawait]
    have hdispatch :
        LapinAsync.Connection.receive_channel_open_ok channelId conn =
          (.error .unexpectedAnswer,
           ((conn.getNextAnswer channelId).2.setChannelState channelId .error)) := by
      rw [LapinAsync.Connection.receive_channel_open_ok]
      rw [if_neg (by simp [hcontains]), if_neg (by simp [hcheck])]
      rw [hpop]
      cases a <;> first
        | (exact absurd rfl (hmismatch _))
        | rfl
    refine ⟨hdispatch, ?_⟩
    rw [hdispatch]
    simp [LapinAsync.Conn.setChannelState, hpop,
      LapinAsync.lookupChan_updateChan, hch]
  · intro hconn hmismatch
    have hpop : conn.getNextAnswer channelId =
        (some a,
         { conn with
           channels := LapinAsync.updateChan channelId
             (fun c => { c with awaiting := rest }) conn.channels }) := by
      simp [LapinAsync.Conn.getNextAnswer, hch, hawait]
    have hdispatch :
        LapinAsync.Connection.receive_channel_close_ok channelId conn =
          (.error .unexpectedAnswer,
           ((conn.getNextAnswer channelId).2.setChannelState channelId .error)) := by
      rw [LapinAsync.Connection.receive_channel_close_ok]
      rw [if_neg (by simp [hcontains]), if_neg (by simp [hconn])]
      rw [hpop]
      cases a <;> first
        | (exact absurd rfl (hmismatch _))
        | rfl
    refine ⟨hdispatch, ?_⟩
    rw [hdispatch]
    simp [LapinAsync.Conn.setChannelState, hpop,
      LapinAsync.lookupChan_updateChan, hch]

/-- C2 witness: channel 1 awaits a Queue.DeclareOk; a Channel.OpenOk
arriving instead errors the channel (first part); channel 2, connected
and awaiting a Channel.FlowOk, receives a Channel.CloseOk instead and
errors (second part). -/
theorem receive_reply_mismatch_errors_witness :
    let ch1 : LapinAsync.Chan :=
      { state := .initial, awaiting := [.awaitingQueueDeclareOk 5] }
    let conn1 : LapinAsync.Conn := { channels := [(1, ch1)], finishedReqs := [] }
    let ch2 : LapinAsync.Chan :=
      { state := .connected, awaiting := [.awaitingChannelFlowOk 9] }
    let conn2 : LapinAsync.Conn := { channels := [(2, ch2)], finishedReqs := [] }
    (LapinAsync.Connection.receive_channel_open_ok 1 conn1 =
        (.error .unexpectedAnswer,
         ((conn1.getNextAnswer 1).2.setChannelState 1 .error)) ∧
      LapinAsync.lookupChan 1
          (LapinAsync.Connection.receive_channel_open_ok 1 conn1).2.channels =
        some { state := .error, awaiting := [] }) ∧
    (LapinAsync.Connection.receive_channel_close_ok 2 conn2 =
        (.error .unexpectedAnswer,
         ((conn2.getNextAnswer 2).2.setChannelState 2 .error)) ∧
      LapinAsync.lookupChan 2
          (LapinAsync.Connection.receive_channel_close_ok 2 conn2).2.channels =
        some { state := .error, awaiting := [] }) :=
  ⟨(receive_reply_mismatch_errors 1
      { channels := [(1, { state := .initial, awaiting := [.awaitingQueueDeclareOk 5] })]
        finishedReqs := [] }
      { state := .initial, awaiting := [.awaitingQueueDeclareOk 5] }
      (.awaitingQueueDeclareOk 5) [] rfl rfl).1 rfl
      (fun _ h => LapinAsync.Answer.noConfusion h),
   (receive_reply_mismatch_errors 2
      { channels := [(2, { state := .connected, awaiting := [.awaitingChannelFlowOk 9] })]
        finishedReqs := [] }
      { state := .connected, awaiting := [.awaitingChannelFlowOk 9] }
      (.awaitingChannelFlowOk 9) [] rfl rfl).2 rfl
      (fun _ h => LapinAsync.Answer.noConfusion h)⟩

/-! ## Legacy lapin-futures consumer stream (futures/src/consumer.rs) -/

namespace LapinFutures

/-- A consumed message as yielded by the stream. -/
structure Delivery where
  deliveryTag : Nat
  body : List Nat
deriving DecidableEq, Repr

/-- `ConsumerInner` (futures/src/consumer.rs lines 48-61): the FIFO of
completed deliveries and the cancelled flag. -/
structure ConsumerInner where
  deliveries : List Delivery
  canceled : Bool
deriving DecidableEq, Repr

/-- `ConsumerInner::default`. -/
def ConsumerInner.default : ConsumerInner :=
  { deliveries := [], canceled := false }

/-- `ConsumerSub::new_delivery`: push a completed delivery at the back
of the FIFO. -/
def ConsumerSub.new_delivery (d : Delivery) (inner : ConsumerInner) : ConsumerInner :=
  { inner with deliveries := inner.deliveries ++ [d] }

/-- `ConsumerSub::drop_prefetched_messages`: clear the FIFO. -/
def ConsumerSub.drop_prefetched_messages (inner : ConsumerInner) : ConsumerInner :=
  { inner with deliveries := [] }

/-- `ConsumerSub::cancel` (futures/src/consumer.rs lines 30-35): clear
the FIFO and set the cancelled flag. -/
def ConsumerSub.cancel (inner : ConsumerInner) : ConsumerInner :=
  { inner with deliveries := [], canceled := true }

/-- The result of a futures-0.1 poll. -/
inductive PollResult (α : Type) where
  | ready (a : α)
  | notReady
  | failed
deriving DecidableEq, Repr

/-- `Consumer::poll` (futures/src/consumer.rs lines 90-111), with the
transport poll outcome passed as a parameter: after the transport is
ready, pop a queued delivery if any, terminate the stream if the
consumer was cancelled, report NotReady otherwise. -/
def Consumer.poll (transport : PollResult Unit) (inner : ConsumerInner) :
    PollResult (Option Delivery) × ConsumerInner :=
  match transport with
  | .failed => (.failed, inner)
  | .notReady => (.notReady, inner)
  | .ready _ =>
    match inner.deliveries with
    | d :: rest => (.ready (some d), { inner with deliveries := rest })
    | [] =>
      if inner.canceled then (.ready none, inner) else (.notReady, inner)

end LapinFutures

/-- C8 counterexample: a consumer holding one completed delivery at the
moment the server cancel arrives; the first poll after the cancel ends
the stream at once instead of yielding the queued delivery first, and
the cancel itself discards the queue. -/
theorem consumer_cancel_drops_queued_deliveries :
    let d0 : LapinFutures.Delivery := { deliveryTag := 7, body := [104, 105] }
    let inner0 : LapinFutures.ConsumerInner := { deliveries := [d0], canceled := false }
    LapinFutures.ConsumerSub.cancel inner0 =
        { deliveries := [], canceled := true } ∧
      LapinFutures.Consumer.poll (.ready ()) (LapinFutures.ConsumerSub.cancel inner0) =
        (.ready none, { deliveries := [], canceled := true }) ∧
      inner0.deliveries ≠ [] ∧
      (LapinFutures.PollResult.ready (some d0) ≠
        (LapinFutures.PollResult.ready (none : Option LapinFutures.Delivery))) := by
  refine ⟨rfl, rfl, ?_, ?_⟩ <;> decide

/-- C8 amended: a server cancel clears the queue of already completed
deliveries, and every subsequent poll of the consumer (with the
transport ready) terminates the stream immediately by yielding
end-of-stream, without emitting the dropped deliveries. -/
theorem consumer_cancel_terminates_stream (inner : LapinFutures.ConsumerInner) :
    LapinFutures.ConsumerSub.cancel inner =
        { deliveries := [], canceled := true } ∧
      LapinFutures.Consumer.poll (.ready ()) (LapinFutures.ConsumerSub.cancel inner) =
        (.ready none, LapinFutures.ConsumerSub.cancel inner) := by
  exact ⟨rfl, rfl⟩
